import Mathlib

/-!
# gofiber-backend: request handlers over a relational store

A shallow embedding of `gofiber-backend/main.go`.

* The Go structs `Record`, `User`, `APIKey` are Lean structures.
* `db *sql.DB` is an explicit interface `DB σ` over a store state `σ`: the handlers
  are written once, against any store, and each returns its response together with
  the store state it leaves behind.
* `Store` is the relational store of the specification (tables `records`, `users`,
  `api_keys`), with the statement semantics of the MySQL driver the program links.
* A response is the status code and the `fiber.Map` handed to `c.JSON`.
-/

set_option linter.dupNamespace false

namespace GofiberBackend

/-! ## Domain records (main.go, lines 15-36) -/

/-- The Go struct `Record`. -/
structure Record where
  ID : Int
  Name : String
  Value : String
  CreatedAt : String
  UpdatedAt : String
deriving DecidableEq, Repr

/-- The Go struct `User`. -/
structure User where
  ID : Int
  Username : String
  Email : String
  CreatedAt : String
deriving DecidableEq, Repr

/-- The Go struct `APIKey`. -/
structure APIKey where
  ID : Int
  KeyName : String
  APIKey : String
  UserID : Int
  IsActive : Bool
deriving DecidableEq, Repr

/-! ## Responses -/

/-- A scalar stored in a `map[string]interface{}` row of `getAPIKeys`. -/
inductive Scalar
  | int (n : Int)
  | str (s : String)
  | bool (b : Bool)
deriving DecidableEq, Repr

/-- The values the handlers put in a `fiber.Map`. A Go slice is a list; the nil slice
(no `append` ever ran) is the empty list. -/
inductive Value
  | bool (b : Bool)
  | int (n : Int)
  | str (s : String)
  | record (r : Record)
  | records (rs : List Record)
  | user (u : User)
  | users (us : List User)
  | objects (ms : List (List (String × Scalar)))
deriving DecidableEq, Repr

/-- The `fiber.Map` handed to `c.JSON`, as an association list in source order. -/
abbrev Map := List (String × Value)

/-- What `c.Status(code).JSON(body)` sends; `c.JSON(body)` alone sends status 200. -/
structure Response where
  status : Nat
  body : Map
deriving DecidableEq, Repr

/-! ## Requests -/

/-- The parts of `*fiber.Ctx` the handlers read: request headers, route parameters and
the outcome of `c.BodyParser` into a `Record` and into a `User` (`none`: the parser
returned an error). -/
structure Ctx where
  headers : List (String × String)
  params : List (String × String)
  record : Option Record
  user : Option User
deriving DecidableEq, Repr

/-- The call `c.Get(key)`: the header value, or the empty string when there is none
(headers are keyed by the name the program asks for). -/
def Ctx.Get (c : Ctx) (key : String) : String :=
  match c.headers.lookup key with
  | some v => v
  | none => ""

/-- The call `c.Params(key)`: the route parameter, or the empty string when there is none. -/
def Ctx.Params (c : Ctx) (key : String) : String :=
  match c.params.lookup key with
  | some v => v
  | none => ""

/-! ## strconv.Atoi -/

/-- Value of a decimal digit byte. -/
def digit (ch : Char) : Option Nat :=
  if '0' ≤ ch ∧ ch ≤ '9' then some (ch.toNat - '0'.toNat) else none

/-- The digit loop of `Atoi`: `n = n*10 + int(ch)`, a syntax error on any other byte. -/
def digits : List Char → Nat → Option Nat
  | [], n => some n
  | ch :: rest, n =>
    match digit ch with
    | none => none
    | some d => digits rest (n * 10 + d)

/-- The function `strconv.Atoi` for a 64-bit `int`: an optional sign, then one or more
decimal digits, the value within the range of `int`; `none` is the error return. -/
def Atoi (s : String) : Option Int :=
  let s0 := s.toList
  let neg := match s0 with
    | '-' :: _ => true
    | _ => false
  let body := match s0 with
    | '-' :: rest => rest
    | '+' :: rest => rest
    | _ => s0
  match body with
  | [] => none
  | _ =>
    match digits body 0 with
    | none => none
    | some n =>
      let v : Int := if neg then -(n : Int) else (n : Int)
      if -(2 : Int) ^ 63 ≤ v ∧ v < (2 : Int) ^ 63 then some v else none

/-! ## database/sql -/

/-- A column value as the driver delivers it (`driver.Value`): SQL NULL, an integer, or
text (timestamps are delivered as their text). -/
inductive Cell
  | null
  | int (n : Int)
  | text (s : String)
deriving DecidableEq, Repr

/-- One result row. -/
abbrev Row := List Cell

/-- The nine SQL statements of the program, with their bound arguments. -/
inductive Stmt
  | selectIsActive (apiKey : String)
  | selectRecords
  | insertRecord (name value : String)
  | selectRecord (id : Int)
  | updateRecord (name value : String) (id : Int)
  | deleteRecord (id : Int)
  | selectUsers
  | insertUser (username email : String)
  | selectAPIKeys
deriving DecidableEq, Repr

/-- The SQL text of each statement, as it stands in main.go. -/
def Stmt.sql : Stmt → String
  | .selectIsActive _ => "SELECT is_active FROM api_keys WHERE api_key = ?"
  | .selectRecords => "SELECT id, name, value, created_at, updated_at FROM records ORDER BY created_at DESC"
  | .insertRecord _ _ => "INSERT INTO records (name, value) VALUES (?, ?)"
  | .selectRecord _ => "SELECT id, name, value, created_at, updated_at FROM records WHERE id = ?"
  | .updateRecord _ _ _ => "UPDATE records SET name = ?, value = ? WHERE id = ?"
  | .deleteRecord _ => "DELETE FROM records WHERE id = ?"
  | .selectUsers => "SELECT id, username, email, created_at FROM users ORDER BY created_at DESC"
  | .insertUser _ _ => "INSERT INTO users (username, email) VALUES (?, ?)"
  | .selectAPIKeys => "SELECT ak.id, ak.key_name, ak.api_key, ak.user_id, ak.is_active, u.username FROM api_keys ak JOIN users u ON ak.user_id = u.id ORDER BY ak.created_at DESC"

/-- The positional arguments bound to each statement. -/
def Stmt.args : Stmt → List Cell
  | .selectIsActive apiKey => [.text apiKey]
  | .insertRecord name value => [.text name, .text value]
  | .selectRecord id => [.int id]
  | .updateRecord name value id => [.text name, .text value, .int id]
  | .deleteRecord id => [.int id]
  | .insertUser username email => [.text username, .text email]
  | _ => []

/-- The errors the handlers can see: `sql.ErrNoRows`, a failed `Scan` conversion, or
any error of the driver (connection, constraint, timeout). -/
inductive DBError
  | ErrNoRows
  | scan
  | driver
deriving DecidableEq, Repr

/-- The type `sql.Result`: last insert id and number of affected rows. -/
structure Result where
  LastInsertId : Int
  RowsAffected : Int
deriving DecidableEq, Repr

/-- The handle `db`: how a store in state `σ` answers `db.Query` and `db.Exec`. -/
structure DB (σ : Type) where
  Query : Stmt → σ → Except DBError (List Row) × σ
  Exec : Stmt → σ → Except DBError Result × σ

/-- The call `db.QueryRow`: the query's first row, `sql.ErrNoRows` when it has none. -/
def DB.QueryRow {σ : Type} (db : DB σ) (q : Stmt) (s : σ) : Except DBError Row × σ :=
  match db.Query q s with
  | (.error e, s1) => (.error e, s1)
  | (.ok [], s1) => (.error .ErrNoRows, s1)
  | (.ok (row :: _), s1) => (.ok row, s1)

/-- Scanning a column into a Go `string`: NULL is an error, an integer is formatted. -/
def scanString : Cell → Option String
  | .null => none
  | .int n => some (toString n)
  | .text s => some s

/-- Scanning a column into a Go `int`: NULL is an error, text must parse. -/
def scanInt : Cell → Option Int
  | .null => none
  | .int n => some n
  | .text s => Atoi s

/-- Scanning a column into a Go `bool`: 1 and 0, or the texts of `strconv.ParseBool`. -/
def scanBool : Cell → Option Bool
  | .null => none
  | .int n => if n = 1 then some true else if n = 0 then some false else none
  | .text s =>
    if s ∈ ["1", "t", "T", "TRUE", "true", "True"] then some true
    else if s ∈ ["0", "f", "F", "FALSE", "false", "False"] then some false
    else none

/-- The destinations `&isActive`. -/
def scanIsActive : Row → Option Bool
  | [a] => scanBool a
  | _ => none

/-- The destinations `&record.ID, &record.Name, &record.Value, &record.CreatedAt,
&record.UpdatedAt`. -/
def scanRecord : Row → Option Record
  | [a, b, c, d, e] =>
    match scanInt a, scanString b, scanString c, scanString d, scanString e with
    | some id, some name, some value, some created, some updated =>
      some ⟨id, name, value, created, updated⟩
    | _, _, _, _, _ => none
  | _ => none

/-- The destinations `&user.ID, &user.Username, &user.Email, &user.CreatedAt`. -/
def scanUser : Row → Option User
  | [a, b, c, d] =>
    match scanInt a, scanString b, scanString c, scanString d with
    | some id, some username, some email, some created => some ⟨id, username, email, created⟩
    | _, _, _, _ => none
  | _ => none

/-- The destinations `&apiKey.ID, &apiKey.KeyName, &apiKey.APIKey, &apiKey.UserID,
&apiKey.IsActive, &username`. -/
def scanAPIKey : Row → Option (APIKey × String)
  | [a, b, c, d, e, f] =>
    match scanInt a, scanString b, scanString c, scanInt d, scanBool e, scanString f with
    | some id, some keyName, some key, some userId, some active, some username =>
      some (⟨id, keyName, key, userId, active⟩, username)
    | _, _, _, _, _, _ => none
  | _ => none

/-- The method `Scan` on the outcome of `QueryRow`: the query's error if it had one,
else the conversion into the destinations. -/
def Scan {α : Type} (dest : Row → Option α) : Except DBError Row → Except DBError α
  | .error e => .error e
  | .ok row =>
    match dest row with
    | some a => .ok a
    | none => .error .scan

/-! ## The validation middleware (main.go, lines 129-154) -/

/-- The middleware `validateAPIKey`; `next` is the rest of the handler chain, run by
`c.Next()`. -/
def validateAPIKey {σ : Type} (db : DB σ) (next : Ctx → σ → Response × σ) (c : Ctx) (s : σ) :
    Response × σ :=
  let apiKey := c.Get "X-API-Key"
  if apiKey = "" then
    (⟨401, [("error", .str "API key required")]⟩, s)
  else
    let q := db.QueryRow (.selectIsActive apiKey) s
    match Scan scanIsActive q.1 with
    | .error _ => (⟨401, [("error", .str "Invalid API key")]⟩, q.2)
    | .ok isActive =>
      if !isActive then
        (⟨401, [("error", .str "API key is inactive")]⟩, q.2)
      else
        next c q.2

/-! ## Records handlers (main.go, lines 156-306) -/

/-- The loop `for rows.Next()` of `getRecords`: a row whose `Scan` fails is skipped
(`continue`), any other is appended. -/
def scanRecords : List Row → List Record → List Record
  | [], records => records
  | row :: rows, records =>
    match scanRecord row with
    | none => scanRecords rows records
    | some record => scanRecords rows (records ++ [record])

/-- The handler `getRecords`. -/
def getRecords {σ : Type} (db : DB σ) (_c : Ctx) (s : σ) : Response × σ :=
  match db.Query .selectRecords s with
  | (.error _, s1) => (⟨500, [("error", .str "Failed to fetch records")]⟩, s1)
  | (.ok rows, s1) =>
    let records := scanRecords rows []
    (⟨200, [("data", .records records), ("count", .int records.length),
      ("success", .bool true)]⟩, s1)

/-- The handler `createRecord`. -/
def createRecord {σ : Type} (db : DB σ) (c : Ctx) (s : σ) : Response × σ :=
  match c.record with
  | none => (⟨400, [("error", .str "Invalid request body")]⟩, s)
  | some record =>
    if record.Name = "" then
      (⟨400, [("error", .str "Name is required")]⟩, s)
    else
      match db.Exec (.insertRecord record.Name record.Value) s with
      | (.error _, s1) => (⟨500, [("error", .str "Failed to create record")]⟩, s1)
      | (.ok result, s1) =>
        (⟨201, [("data", .record { record with ID := result.LastInsertId }),
          ("success", .bool true), ("message", .str "Record created successfully")]⟩, s1)

/-- The handler `getRecord`. -/
def getRecord {σ : Type} (db : DB σ) (c : Ctx) (s : σ) : Response × σ :=
  match Atoi (c.Params "id") with
  | none => (⟨400, [("error", .str "Invalid record ID")]⟩, s)
  | some id =>
    let q := db.QueryRow (.selectRecord id) s
    match Scan scanRecord q.1 with
    | .error .ErrNoRows => (⟨404, [("error", .str "Record not found")]⟩, q.2)
    | .error _ => (⟨500, [("error", .str "Failed to fetch record")]⟩, q.2)
    | .ok record => (⟨200, [("data", .record record), ("success", .bool true)]⟩, q.2)

/-- The handler `updateRecord`. -/
def updateRecord {σ : Type} (db : DB σ) (c : Ctx) (s : σ) : Response × σ :=
  match Atoi (c.Params "id") with
  | none => (⟨400, [("error", .str "Invalid record ID")]⟩, s)
  | some id =>
    match c.record with
    | none => (⟨400, [("error", .str "Invalid request body")]⟩, s)
    | some record =>
      match db.Exec (.updateRecord record.Name record.Value id) s with
      | (.error _, s1) => (⟨500, [("error", .str "Failed to update record")]⟩, s1)
      | (.ok result, s1) =>
        if result.RowsAffected = 0 then
          (⟨404, [("error", .str "Record not found")]⟩, s1)
        else
          (⟨200, [("data", .record { record with ID := id }), ("success", .bool true),
            ("message", .str "Record updated successfully")]⟩, s1)

/-- The handler `deleteRecord`. -/
def deleteRecord {σ : Type} (db : DB σ) (c : Ctx) (s : σ) : Response × σ :=
  match Atoi (c.Params "id") with
  | none => (⟨400, [("error", .str "Invalid record ID")]⟩, s)
  | some id =>
    match db.Exec (.deleteRecord id) s with
    | (.error _, s1) => (⟨500, [("error", .str "Failed to delete record")]⟩, s1)
    | (.ok result, s1) =>
      if result.RowsAffected = 0 then
        (⟨404, [("error", .str "Record not found")]⟩, s1)
      else
        (⟨200, [("success", .bool true), ("message", .str "Record deleted successfully")]⟩, s1)

/-! ## Users handlers (main.go, lines 308-364) -/

/-- The loop `for rows.Next()` of `getUsers`. -/
def scanUsers : List Row → List User → List User
  | [], users => users
  | row :: rows, users =>
    match scanUser row with
    | none => scanUsers rows users
    | some user => scanUsers rows (users ++ [user])

/-- The handler `getUsers`. -/
def getUsers {σ : Type} (db : DB σ) (_c : Ctx) (s : σ) : Response × σ :=
  match db.Query .selectUsers s with
  | (.error _, s1) => (⟨500, [("error", .str "Failed to fetch users")]⟩, s1)
  | (.ok rows, s1) =>
    let users := scanUsers rows []
    (⟨200, [("data", .users users), ("count", .int users.length), ("success", .bool true)]⟩, s1)

/-- The handler `createUser`. -/
def createUser {σ : Type} (db : DB σ) (c : Ctx) (s : σ) : Response × σ :=
  match c.user with
  | none => (⟨400, [("error", .str "Invalid request body")]⟩, s)
  | some user =>
    if user.Username = "" ∨ user.Email = "" then
      (⟨400, [("error", .str "Username and email are required")]⟩, s)
    else
      match db.Exec (.insertUser user.Username user.Email) s with
      | (.error _, s1) => (⟨500, [("error", .str "Failed to create user")]⟩, s1)
      | (.ok result, s1) =>
        (⟨201, [("data", .user { user with ID := result.LastInsertId }),
          ("success", .bool true), ("message", .str "User created successfully")]⟩, s1)

/-! ## API keys handler (main.go, lines 366-405) -/

/-- The `map[string]interface{}` that `getAPIKeys` builds for one scanned row. -/
def apiKeyObject (apiKey : APIKey) (username : String) : List (String × Scalar) :=
  [("id", .int apiKey.ID), ("key_name", .str apiKey.KeyName), ("api_key", .str apiKey.APIKey),
   ("user_id", .int apiKey.UserID), ("username", .str username),
   ("is_active", .bool apiKey.IsActive)]

/-- The loop `for rows.Next()` of `getAPIKeys`. -/
def scanAPIKeys : List Row → List (List (String × Scalar)) → List (List (String × Scalar))
  | [], apiKeys => apiKeys
  | row :: rows, apiKeys =>
    match scanAPIKey row with
    | none => scanAPIKeys rows apiKeys
    | some (apiKey, username) => scanAPIKeys rows (apiKeys ++ [apiKeyObject apiKey username])

/-- The handler `getAPIKeys`. -/
def getAPIKeys {σ : Type} (db : DB σ) (_c : Ctx) (s : σ) : Response × σ :=
  match db.Query .selectAPIKeys s with
  | (.error _, s1) => (⟨500, [("error", .str "Failed to fetch API keys")]⟩, s1)
  | (.ok rows, s1) =>
    let apiKeys := scanAPIKeys rows []
    (⟨200, [("data", .objects apiKeys), ("count", .int apiKeys.length),
      ("success", .bool true)]⟩, s1)

/-! ## Routing (main.go, lines 74-94) -/

/-- The routes that `main` registers under `/api`. -/
inductive Route
  | getData
  | postData
  | getDataId
  | putDataId
  | deleteDataId
  | getUsers
  | postUsers
  | getApikeys
  | protectedGetData
  | protectedPostData
deriving DecidableEq, Repr

/-- The handler chain `main` attaches to each route; the group `/protected` runs
`validateAPIKey` first. -/
def serve {σ : Type} (db : DB σ) : Route → Ctx → σ → Response × σ
  | .getData => getRecords db
  | .postData => createRecord db
  | .getDataId => getRecord db
  | .putDataId => updateRecord db
  | .deleteDataId => deleteRecord db
  | .getUsers => getUsers db
  | .postUsers => createUser db
  | .getApikeys => getAPIKeys db
  | .protectedGetData => validateAPIKey db (getRecords db)
  | .protectedPostData => validateAPIKey db (createRecord db)

/-- The handle `db` with every statement it is sent recorded, in order, next to the
store state. -/
def DB.traced {σ : Type} (db : DB σ) : DB (σ × List Stmt) where
  Query q st := ((db.Query q st.1).1, ((db.Query q st.1).2, st.2 ++ [q]))
  Exec q st := ((db.Exec q st.1).1, ((db.Exec q st.1).2, st.2 ++ [q]))

/-! ## The relational store -/

/-- Modelled from the spec: the relational store behind `db` and its schema, which are
not part of main.go (tables `records(id, name, value, created_at, updated_at)`,
`users(id, username, email, created_at)` and `api_keys(id, key_name, api_key, user_id,
is_active, created_at)`, ids assigned by the store). A row of `records`, `users` or
`api_keys` carries the columns of the Go struct it is scanned into. Each table is kept
in the order `ORDER BY created_at DESC` yields, most recent first, so an insert puts its
row in front. `recordSeq` and `userSeq` count the ids handed out so far; `now` is the
timestamp text a new row receives. `faults` says, for each of the coming statements in
turn, whether the driver reports an error for it (lost connection, timeout, rejected
statement); when the list is exhausted no statement fails. -/
structure Store where
  records : List Record
  users : List User
  api_keys : List APIKey
  recordSeq : Nat
  userSeq : Nat
  now : String
  faults : List Bool
deriving DecidableEq, Repr

/-- A row of `records` as the driver delivers it. -/
def recordRow (r : Record) : Row :=
  [.int r.ID, .text r.Name, .text r.Value, .text r.CreatedAt, .text r.UpdatedAt]

/-- A row of `users` as the driver delivers it. -/
def userRow (u : User) : Row :=
  [.int u.ID, .text u.Username, .text u.Email, .text u.CreatedAt]

/-- The column `is_active` as the driver delivers it. -/
def activeCell (k : APIKey) : Cell :=
  .int (if k.IsActive then 1 else 0)

/-- The rows of `api_keys ak JOIN users u ON ak.user_id = u.id` for one key. -/
def apiKeyRows (users : List User) (k : APIKey) : List Row :=
  (users.filter (fun u => u.ID = k.UserID)).map
    (fun u => [.int k.ID, .text k.KeyName, .text k.APIKey, .int k.UserID, activeCell k,
      .text u.Username])

/-- Whether `UPDATE records SET name = ?, value = ? WHERE id = ?` changes row `r`: the
row matches the id and its name or value differs from the new one. -/
def changes (name value : String) (id : Int) (r : Record) : Bool :=
  decide (r.ID = id) && !(decide (r.Name = name) && decide (r.Value = value))

/-- The row that the update leaves in the place of `r`. -/
def applyUpdate (name value : String) (id : Int) (r : Record) : Record :=
  if changes name value id r then { r with Name := name, Value := value } else r

/-- Modelled from the spec: what each statement does to the store, and the rows and
`sql.Result` it produces. An insert assigns the next id of the table; `RowsAffected` of
an update is the number of rows the statement changed, as the MySQL driver reports it
under the DSN of `initDB` (which does not set `clientFoundRows`); `RowsAffected` of a
delete is the number of rows removed. A key matches a row of `api_keys` when the two
strings are equal. -/
def Store.execute (s : Store) : Stmt → List Row × Result × Store
  | .selectIsActive apiKey =>
    ((s.api_keys.filter (fun k => k.APIKey = apiKey)).map (fun k => [activeCell k]), ⟨0, 0⟩, s)
  | .selectRecords => (s.records.map recordRow, ⟨0, 0⟩, s)
  | .insertRecord name value =>
    ([], ⟨(s.recordSeq : Int) + 1, 1⟩,
      { s with
        records := ⟨(s.recordSeq : Int) + 1, name, value, s.now, s.now⟩ :: s.records
        recordSeq := s.recordSeq + 1 })
  | .selectRecord id => ((s.records.filter (fun r => r.ID = id)).map recordRow, ⟨0, 0⟩, s)
  | .updateRecord name value id =>
    ([], ⟨0, ((s.records.filter (changes name value id)).length : Int)⟩,
      { s with
        records := s.records.map (applyUpdate name value id) })
  | .deleteRecord id =>
    ([], ⟨0, ((s.records.filter (fun r => r.ID = id)).length : Int)⟩,
      { s with records := s.records.filter (fun r => r.ID ≠ id) })
  | .selectUsers => (s.users.map userRow, ⟨0, 0⟩, s)
  | .insertUser username email =>
    ([], ⟨(s.userSeq : Int) + 1, 1⟩,
      { s with
        users := ⟨(s.userSeq : Int) + 1, username, email, s.now⟩ :: s.users
        userSeq := s.userSeq + 1 })
  | .selectAPIKeys => ((s.api_keys.map (apiKeyRows s.users)).flatten, ⟨0, 0⟩, s)

/-- Whether the driver reports an error for the next statement. -/
def Store.failing (s : Store) : Bool :=
  match s.faults with
  | true :: _ => true
  | _ => false

/-- The handle `db` of the program, opened on the store. A statement for which the
driver reports an error is taken to have had no effect on the tables. -/
def Store.db : DB Store where
  Query q s :=
    if s.failing then (.error .driver, { s with faults := s.faults.tail })
    else (.ok (s.execute q).1, { (s.execute q).2.2 with faults := s.faults.tail })
  Exec q s :=
    if s.failing then (.error .driver, { s with faults := s.faults.tail })
    else (.ok (s.execute q).2.1, { (s.execute q).2.2 with faults := s.faults.tail })

/-- The first row of `records` with the given id, the one `getRecord` is answered with. -/
def Store.find (s : Store) (id : Int) : Option Record :=
  s.records.find? (fun r => r.ID = id)

/-! ## Sequences of requests on `/api/data` -/

/-- A request that writes to `records`: `POST /api/data`, `PUT /api/data/:id` or
`DELETE /api/data/:id`. -/
inductive Request
  | create (c : Ctx)
  | update (c : Ctx)
  | delete (c : Ctx)
deriving DecidableEq, Repr

/-- The program serving one writing request. -/
def Store.handle (s : Store) : Request → Response × Store
  | .create c => createRecord Store.db c s
  | .update c => updateRecord Store.db c s
  | .delete c => deleteRecord Store.db c s

/-- The store after a sequence of writing requests. -/
def Store.after (s : Store) : List Request → Store
  | [] => s
  | req :: rest => Store.after (s.handle req).2 rest

/-- The name and value held for each id. -/
abbrev Ledger := Int → Option (String × String)

/-- The record in the `data` field of a response. -/
def dataRecord (resp : Response) : Option Record :=
  match resp.body.lookup "data" with
  | some (.record r) => some r
  | _ => none

/-- The fields written, following the specification's words: a create answered 201
writes the name and value of the record it returns under the id it returns, an update
answered 200 writes the name and value it returns under its id, a delete answered 200
removes its id; any other response writes nothing. -/
def Ledger.note (m : Ledger) (req : Request) (resp : Response) : Ledger :=
  match req with
  | .create _ =>
    match dataRecord resp with
    | some r => if resp.status = 201 then fun id => if id = r.ID then some (r.Name, r.Value) else m id
      else m
    | none => m
  | .update _ =>
    match dataRecord resp with
    | some r => if resp.status = 200 then fun id => if id = r.ID then some (r.Name, r.Value) else m id
      else m
    | none => m
  | .delete c =>
    match Atoi (c.Params "id") with
    | some i => if resp.status = 200 then fun id => if id = i then none else m id else m
    | none => m

/-- The fields last written for each id by a sequence of requests served from store
`s`, starting from the ledger `m`. -/
def lastWritten (s : Store) (m : Ledger) : List Request → Ledger
  | [] => m
  | req :: rest => lastWritten (s.handle req).2 (m.note req (s.handle req).1) rest

/-- The name and value the store holds for each id. -/
def Store.ledger (s : Store) : Ledger :=
  fun id => (s.find id).map (fun r => (r.Name, r.Value))

/-! ## Envelopes -/

/-- The envelope in the specification's words: the body carries a `success` boolean and
either `data` or `count` or an `error` string. -/
def isEnvelope (body : Map) : Bool :=
  (match body.lookup "success" with
    | some (.bool _) => true
    | _ => false) &&
  ((body.lookup "data").isSome || (body.lookup "count").isSome ||
    (match body.lookup "error" with
      | some (.str _) => true
      | _ => false))

/-- An error response: status 400, 401, 404 or 500 and a body that is the single field
`error`, a string. -/
def isErrorResponse (r : Response) : Bool :=
  (r.status == 400 || r.status == 401 || r.status == 404 || r.status == 500) &&
  (match r.body with
    | [(key, .str _)] => key == "error"
    | _ => false)

/-- A success response: status 200 or 201, `success` true and no field `error`. -/
def isSuccessResponse (r : Response) : Bool :=
  (r.status == 200 || r.status == 201) &&
  (r.body.lookup "success" == some (.bool true)) && (r.body.lookup "error").isNone

/-- The routes served by a list handler. -/
def Route.lists : Route → Bool
  | .getData => true
  | .getUsers => true
  | .getApikeys => true
  | .protectedGetData => true
  | _ => false

/-- The shape of every response on a route: an error response, or a success response
that carries `data` on every route but `DELETE /api/data/:id` and `count` on exactly the
list routes. -/
def conforms (route : Route) (r : Response) : Prop :=
  isErrorResponse r = true ∨
    (isSuccessResponse r = true ∧
      (r.body.lookup "data").isSome = (route != .deleteDataId) ∧
      (r.body.lookup "count").isSome = route.lists)

/-! ## Sample requests and store states -/

/-- A store with one record, one active key and one inactive key. -/
def sampleStore : Store :=
  { records := [⟨1, "a", "b", "t0", "t0"⟩]
    users := [⟨1, "ann", "ann@example.org", "t0"⟩]
    api_keys := [⟨1, "main", "secret", 1, true⟩, ⟨2, "old", "retired", 1, false⟩]
    recordSeq := 1
    userSeq := 1
    now := "t1"
    faults := [] }

/-- The sample store when the driver reports an error for the next statement. -/
def brokenStore : Store :=
  { sampleStore with faults := [true] }

/-- A request with the given `X-API-Key` header and no body. -/
def keyCtx (key : String) : Ctx :=
  ⟨[("X-API-Key", key)], [], none, none⟩

/-- A request with no header at all. -/
def bareCtx : Ctx :=
  ⟨[], [], none, none⟩

/-- A request on `/api/data/:id` with the given path id and parsed body. -/
def idCtx (id : String) (body : Option Record) : Ctx :=
  ⟨[], [("id", id)], body, none⟩

/-- A `POST /api/data` request with the given parsed body. -/
def recordCtx (body : Option Record) : Ctx :=
  ⟨[], [], body, none⟩

/-- A `POST /api/users` request with the given parsed body. -/
def userCtx (body : Option User) : Ctx :=
  ⟨[], [], none, body⟩

/-- A handle that answers every query with the given rows and leaves its state alone. -/
def cannedDB (rows : List Row) : DB Unit where
  Query _ s := (.ok rows, s)
  Exec _ s := (.error .driver, s)

/-! ## Lemmas on the store -/

theorem Store.db_Exec_ok (s : Store) (q : Stmt) (h : s.failing = false) :
    Store.db.Exec q s = (.ok (s.execute q).2.1, { (s.execute q).2.2 with faults := s.faults.tail }) := by
  simp [Store.db, h]

theorem Store.db_Exec_fail (s : Store) (q : Stmt) (h : s.failing = true) :
    Store.db.Exec q s = (.error .driver, { s with faults := s.faults.tail }) := by
  simp [Store.db, h]

theorem Store.db_Query_ok (s : Store) (q : Stmt) (h : s.failing = false) :
    Store.db.Query q s = (.ok (s.execute q).1, { (s.execute q).2.2 with faults := s.faults.tail }) := by
  simp [Store.db, h]

theorem scanRecord_recordRow (r : Record) : scanRecord (recordRow r) = some r := by
  simp [scanRecord, recordRow, scanInt, scanString]

theorem scanBool_activeCell (k : APIKey) : scanBool (activeCell k) = some k.IsActive := by
  cases h : k.IsActive <;> simp [scanBool, activeCell, h]

/-- The first row of a mapped filter is the image of the first match. -/
theorem head_filter_map {α β : Type} (p : α → Bool) (f : α → β) (l : List α) :
    ((l.filter p).map f).head? = (l.find? p).map f := by
  induction l with
  | nil => rfl
  | cons a l ih =>
    by_cases h : p a = true
    · simp [List.filter, List.find?, h]
    · simp [List.filter, List.find?, h, ih]

/-- What `QueryRow(...).Scan(&isActive)` yields on a store that answers. -/
theorem Store.scan_isActive (s : Store) (key : String) (h : s.failing = false) :
    Scan scanIsActive (Store.db.QueryRow (.selectIsActive key) s).1 =
        (match s.api_keys.find? (fun k => k.APIKey = key) with
          | none => .error .ErrNoRows
          | some k => .ok k.IsActive) ∧
      (Store.db.QueryRow (.selectIsActive key) s).2 = { s with faults := s.faults.tail } := by
  have hh := head_filter_map (fun k : APIKey => decide (k.APIKey = key)) (fun k => [activeCell k])
    s.api_keys
  simp only [DB.QueryRow, Store.db_Query_ok s _ h, Store.execute]
  cases hf : (s.api_keys.filter (fun k => decide (k.APIKey = key))).map (fun k => [activeCell k]) with
  | nil =>
    rw [hf] at hh
    cases hk : s.api_keys.find? (fun k => decide (k.APIKey = key)) with
    | none => simp [Scan]
    | some k => rw [hk] at hh; simp at hh
  | cons row rows =>
    rw [hf] at hh
    cases hk : s.api_keys.find? (fun k => decide (k.APIKey = key)) with
    | none => rw [hk] at hh; simp at hh
    | some k =>
      rw [hk] at hh
      simp at hh
      subst hh
      simp [Scan, scanIsActive, scanBool_activeCell]

/-- What `QueryRow(...).Scan(&record...)` yields on a store that answers. -/
theorem Store.scan_record (s : Store) (id : Int) (h : s.failing = false) :
    Scan scanRecord (Store.db.QueryRow (.selectRecord id) s).1 =
        (match s.find id with
          | none => .error .ErrNoRows
          | some r => .ok r) ∧
      (Store.db.QueryRow (.selectRecord id) s).2 = { s with faults := s.faults.tail } := by
  have hh := head_filter_map (fun r : Record => decide (r.ID = id)) recordRow s.records
  simp only [DB.QueryRow, Store.db_Query_ok s _ h, Store.execute, Store.find]
  cases hf : (s.records.filter (fun r => decide (r.ID = id))).map recordRow with
  | nil =>
    rw [hf] at hh
    cases hk : s.records.find? (fun r => decide (r.ID = id)) with
    | none => simp [Scan]
    | some k => rw [hk] at hh; simp at hh
  | cons row rows =>
    rw [hf] at hh
    cases hk : s.records.find? (fun r => decide (r.ID = id)) with
    | none => rw [hk] at hh; simp at hh
    | some k =>
      rw [hk] at hh
      simp at hh
      subst hh
      simp [Scan, scanRecord_recordRow]

/-- The response of `getRecord` on a store that answers. -/
theorem getRecord_store (s : Store) (c : Ctx) (id : Int) (hid : Atoi (c.Params "id") = some id)
    (h : s.failing = false) :
    getRecord Store.db c s =
      ((match s.find id with
        | none => ⟨404, [("error", .str "Record not found")]⟩
        | some r => ⟨200, [("data", .record r), ("success", .bool true)]⟩),
       { s with faults := s.faults.tail }) := by
  obtain ⟨h1, h2⟩ := Store.scan_record s id h
  simp only [getRecord, hid, h1, h2]
  cases s.find id <;> rfl

/-! ## C1: the validation middleware -/

/-- C1, as stated, fails in two places. A key whose row is active is answered
401 "Invalid API key", the wrapped handler not run, when the driver reports an error
for the lookup. And a request that carries the header `X-API-Key` with an empty value,
a key that matches no row, is answered "API key required", not "Invalid API key". -/
theorem validateAPIKey_counterexample :
    (brokenStore.api_keys.find? (fun k => k.APIKey = "secret") = some ⟨1, "main", "secret", 1, true⟩ ∧
      validateAPIKey Store.db (getRecords Store.db) (keyCtx "secret") brokenStore =
        (⟨401, [("error", .str "Invalid API key")]⟩, sampleStore)) ∧
    ((keyCtx "").headers.lookup "X-API-Key" = some "" ∧
      sampleStore.api_keys.find? (fun k => k.APIKey = "") = none ∧
      validateAPIKey Store.db (getRecords Store.db) (keyCtx "") sampleStore =
        (⟨401, [("error", .str "API key required")]⟩, sampleStore)) := by
  decide

/-- C1, amended: for every request, store state and wrapped handler `next`,
`validateAPIKey` decides as follows. When `c.Get("X-API-Key")` is empty (no header, or
an empty one) it answers 401 "API key required", sends no statement to any store and
leaves it as it was. With a non-empty key, on any store, when `QueryRow(...).Scan`
reports an error it answers 401 "Invalid API key"; when the relational store answers
the lookup, a key matching no row gives 401 "Invalid API key", a key whose first
matching row is inactive gives 401 "API key is inactive", and a key whose first matching
row is active gives exactly what `next` gives on the store after the lookup. The three
rejections do not depend on `next`: the wrapped handler is not run. -/
theorem validateAPIKey_decides (s : Store) (c : Ctx) (next : Ctx → Store → Response × Store) :
    (c.Get "X-API-Key" = "" →
      validateAPIKey Store.db next c s = (⟨401, [("error", .str "API key required")]⟩, s) ∧
      ∀ (σ : Type) (db : DB σ) (nxt : Ctx → σ × List Stmt → Response × (σ × List Stmt)) (t : σ),
        validateAPIKey db.traced nxt c (t, []) =
          (⟨401, [("error", .str "API key required")]⟩, (t, []))) ∧
    (c.Get "X-API-Key" ≠ "" →
      ∀ (σ : Type) (db : DB σ) (nxt : Ctx → σ → Response × σ) (t : σ) (e : DBError),
        Scan scanIsActive (db.QueryRow (.selectIsActive (c.Get "X-API-Key")) t).1 = .error e →
        validateAPIKey db nxt c t =
          (⟨401, [("error", .str "Invalid API key")]⟩,
            (db.QueryRow (.selectIsActive (c.Get "X-API-Key")) t).2)) ∧
    (c.Get "X-API-Key" ≠ "" → s.failing = false →
      validateAPIKey Store.db next c s =
        match s.api_keys.find? (fun k => k.APIKey = c.Get "X-API-Key") with
        | none => (⟨401, [("error", .str "Invalid API key")]⟩, { s with faults := s.faults.tail })
        | some k =>
          if k.IsActive = false then
            (⟨401, [("error", .str "API key is inactive")]⟩, { s with faults := s.faults.tail })
          else next c { s with faults := s.faults.tail }) := by
  refine ⟨fun h => ⟨?_, ?_⟩, fun h σ db nxt t e he => ?_, fun h hf => ?_⟩
  · simp [validateAPIKey, h]
  · intro σ db nxt t
    simp [validateAPIKey, h]
  · simp [validateAPIKey, h, he]
  · obtain ⟨h1, h2⟩ := Store.scan_isActive s (c.Get "X-API-Key") hf
    simp only [validateAPIKey, h, h1, h2, if_false]
    cases s.api_keys.find? (fun k => decide (k.APIKey = c.Get "X-API-Key")) with
    | none => rfl
    | some k => cases hk : k.IsActive <;> simp

/-- C1 at the sample store: the inactive key "retired" is rejected and the active key
"secret" reaches the wrapped handler `getRecords`. -/
theorem validateAPIKey_decides_witness :
    validateAPIKey Store.db (getRecords Store.db) (keyCtx "retired") sampleStore =
        (⟨401, [("error", .str "API key is inactive")]⟩, sampleStore) ∧
      validateAPIKey Store.db (getRecords Store.db) (keyCtx "secret") sampleStore =
        getRecords Store.db (keyCtx "secret") sampleStore ∧
      validateAPIKey Store.db (getRecords Store.db) bareCtx sampleStore =
        (⟨401, [("error", .str "API key required")]⟩, sampleStore) :=
  ⟨(validateAPIKey_decides sampleStore (keyCtx "retired") (getRecords Store.db)).2.2
      (by decide) (by decide),
    (validateAPIKey_decides sampleStore (keyCtx "secret") (getRecords Store.db)).2.2
      (by decide) (by decide),
    ((validateAPIKey_decides sampleStore bareCtx (getRecords Store.db)).1 (by decide)).1⟩

/-! ## C2: createRecord -/

/-- C2, as stated, fails: a body with the non-empty name "n" is answered 500, not 201,
when the driver reports an error for the insert. -/
theorem createRecord_counterexample :
    createRecord Store.db (recordCtx (some ⟨0, "n", "v", "", ""⟩)) brokenStore =
      (⟨500, [("error", .str "Failed to create record")]⟩, sampleStore) := by
  decide

/-- C2, amended: for every store state and parsed body, `createRecord` with an empty
name answers 400 "Name is required", sends no statement to any store and leaves it as it
was; with a non-empty name, when the store executes the insert, it answers 201 with the
body's record under the id the store assigned, which is positive, and the store holds
the new row; on any store, when the insert reports an error it answers 500. -/
theorem createRecord_outcomes (s : Store) (c : Ctx) (record : Record)
    (hb : c.record = some record) :
    (record.Name = "" →
      createRecord Store.db c s = (⟨400, [("error", .str "Name is required")]⟩, s) ∧
      ∀ (σ : Type) (db : DB σ) (t : σ),
        createRecord db.traced c (t, []) =
          (⟨400, [("error", .str "Name is required")]⟩, (t, []))) ∧
    (record.Name ≠ "" → s.failing = false →
      createRecord Store.db c s =
        (⟨201, [("data", .record { record with ID := (s.recordSeq : Int) + 1 }),
            ("success", .bool true), ("message", .str "Record created successfully")]⟩,
          { s with
            records := ⟨(s.recordSeq : Int) + 1, record.Name, record.Value, s.now, s.now⟩ :: s.records
            recordSeq := s.recordSeq + 1
            faults := s.faults.tail }) ∧
      0 < (s.recordSeq : Int) + 1) ∧
    (record.Name ≠ "" →
      ∀ (σ : Type) (db : DB σ) (t t1 : σ) (e : DBError),
        db.Exec (.insertRecord record.Name record.Value) t = (.error e, t1) →
        createRecord db c t = (⟨500, [("error", .str "Failed to create record")]⟩, t1)) := by
  refine ⟨fun h => ⟨?_, ?_⟩, fun h hf => ⟨?_, ?_⟩, fun h σ db t t1 e hx => ?_⟩
  · simp [createRecord, hb, h]
  · intro σ db t
    simp [createRecord, hb, h]
  · simp [createRecord, hb, h, Store.db_Exec_ok s _ hf, Store.execute]
  · omega
  · simp [createRecord, hb, h, hx]

/-- C2 at the sample store: the name "n" is stored under the new id 2. -/
theorem createRecord_outcomes_witness :
    createRecord Store.db (recordCtx (some ⟨0, "n", "v", "", ""⟩)) sampleStore =
        (⟨201, [("data", .record ⟨2, "n", "v", "", ""⟩), ("success", .bool true),
            ("message", .str "Record created successfully")]⟩,
          { sampleStore with
            records := [⟨2, "n", "v", "t1", "t1"⟩, ⟨1, "a", "b", "t0", "t0"⟩]
            recordSeq := 2 }) ∧
      0 < ((sampleStore.recordSeq : Nat) : Int) + 1 :=
  (createRecord_outcomes sampleStore (recordCtx (some ⟨0, "n", "v", "", ""⟩)) ⟨0, "n", "v", "", ""⟩
    rfl).2.1 (by decide) (by decide)

/-! ## Lemmas on update and delete -/

theorem applyUpdate_ID (name value : String) (id : Int) (r : Record) :
    (applyUpdate name value id r).ID = r.ID := by
  unfold applyUpdate
  split <;> rfl

theorem applyUpdate_hit (name value : String) (id : Int) (r : Record) (h : r.ID = id) :
    (applyUpdate name value id r).Name = name ∧ (applyUpdate name value id r).Value = value := by
  unfold applyUpdate
  by_cases hc : changes name value id r = true
  · simp [hc]
  · simp only [hc]
    simp [changes, h] at hc
    simpa using hc

theorem applyUpdate_miss (name value : String) (id : Int) (r : Record) (h : r.ID ≠ id) :
    applyUpdate name value id r = r := by
  simp [applyUpdate, changes, h]

theorem find_map_applyUpdate (name value : String) (id j : Int) (l : List Record) :
    (l.map (applyUpdate name value id)).find? (fun r => r.ID = j) =
      (l.find? (fun r => r.ID = j)).map (applyUpdate name value id) := by
  induction l with
  | nil => rfl
  | cons a l ih =>
    by_cases h : a.ID = j
    · simp [List.find?, applyUpdate_ID, h]
    · simp [List.find?, applyUpdate_ID, h, ih]

theorem map_applyUpdate_of_no_change (name value : String) (id : Int) (l : List Record)
    (h : l.filter (changes name value id) = []) : l.map (applyUpdate name value id) = l := by
  induction l with
  | nil => rfl
  | cons a l ih =>
    by_cases hc : changes name value id a = true
    · simp [List.filter, hc] at h
    · simp only [List.filter, hc] at h
      simp [applyUpdate, hc, ih h]

theorem find_filter_ne (id j : Int) (l : List Record) :
    (l.filter (fun r => r.ID ≠ id)).find? (fun r => r.ID = j) =
      if j = id then none else l.find? (fun r => r.ID = j) := by
  induction l with
  | nil => simp
  | cons a l ih =>
    rw [List.filter_cons]
    by_cases h : a.ID = id
    · have hd : decide (a.ID ≠ id) = false := by simp [h]
      rw [hd, if_neg (by decide), ih]
      by_cases hj : j = id
      · rw [if_pos hj, if_pos hj]
      · have hne : ¬ a.ID = j := fun e => hj (e ▸ h)
        have hd2 : decide (a.ID = j) = false := by simp [hne]
        rw [if_neg hj, if_neg hj, List.find?_cons, hd2]
    · have hd : decide (a.ID ≠ id) = true := by simp [h]
      rw [hd, if_pos rfl, List.find?_cons, List.find?_cons, ih]
      by_cases ha : a.ID = j
      · have hj : ¬ j = id := fun e => h (ha.trans e)
        have hd2 : decide (a.ID = j) = true := by simp [ha]
        simp only [hd2, if_neg hj]
      · have hd2 : decide (a.ID = j) = false := by simp [ha]
        simp only [hd2]

theorem filter_eq_nil_of_find_none (id : Int) (l : List Record)
    (h : l.find? (fun r => r.ID = id) = none) :
    l.filter (fun r => r.ID = id) = [] ∧ l.filter (fun r => r.ID ≠ id) = l := by
  induction l with
  | nil => exact ⟨rfl, rfl⟩
  | cons a l ih =>
    by_cases ha : a.ID = id
    · simp [List.find?, ha] at h
    · have hd : decide (a.ID = id) = false := by simp [ha]
      have hd2 : decide (a.ID ≠ id) = true := by simp [ha]
      rw [List.find?_cons, hd] at h
      obtain ⟨i1, i2⟩ := ih h
      rw [List.filter_cons, List.filter_cons, hd, hd2, if_neg (by decide), if_pos rfl, i1, i2]
      exact ⟨rfl, rfl⟩

theorem filter_ne_nil_of_find_some (id : Int) (l : List Record)
    (h : l.find? (fun r => r.ID = id) ≠ none) : l.filter (fun r => r.ID = id) ≠ [] := by
  induction l with
  | nil => simp at h
  | cons a l ih =>
    by_cases ha : a.ID = id
    · simp [List.filter, ha]
    · simp only [List.find?, ha, decide_False] at h
      simp [List.filter, ha, ih h]

theorem filter_changes_nil_of_find_none (name value : String) (id : Int) (l : List Record)
    (h : l.find? (fun r => r.ID = id) = none) : l.filter (changes name value id) = [] := by
  induction l with
  | nil => rfl
  | cons a l ih =>
    by_cases ha : a.ID = id
    · simp [List.find?, ha] at h
    · simp only [List.find?, ha, decide_False] at h
      simp [List.filter, changes, ha, ih h]

/-- The outcome of `updateRecord` on a store that answers, by the number of rows the
statement changes. -/
theorem updateRecord_store (s : Store) (c : Ctx) (id : Int) (record : Record)
    (hid : Atoi (c.Params "id") = some id) (hb : c.record = some record)
    (hf : s.failing = false) :
    updateRecord Store.db c s =
      if s.records.filter (changes record.Name record.Value id) = [] then
        (⟨404, [("error", .str "Record not found")]⟩, { s with faults := s.faults.tail })
      else
        (⟨200, [("data", .record { record with ID := id }), ("success", .bool true),
            ("message", .str "Record updated successfully")]⟩,
          { s with
            records := s.records.map (applyUpdate record.Name record.Value id)
            faults := s.faults.tail }) := by
  by_cases h0 : s.records.filter (changes record.Name record.Value id) = []
  · simp [updateRecord, hid, hb, Store.db_Exec_ok s _ hf, Store.execute, h0,
      map_applyUpdate_of_no_change _ _ _ _ h0]
  · simp [updateRecord, hid, hb, Store.db_Exec_ok s _ hf, Store.execute, h0]

/-- The outcome of `deleteRecord` on a store that answers. -/
theorem deleteRecord_store (s : Store) (c : Ctx) (id : Int)
    (hid : Atoi (c.Params "id") = some id) (hf : s.failing = false) :
    deleteRecord Store.db c s =
      if s.find id = none then
        (⟨404, [("error", .str "Record not found")]⟩, { s with faults := s.faults.tail })
      else
        (⟨200, [("success", .bool true), ("message", .str "Record deleted successfully")]⟩,
          { s with
            records := s.records.filter (fun r => r.ID ≠ id)
            faults := s.faults.tail }) := by
  by_cases h0 : s.find id = none
  · obtain ⟨h1, h2⟩ := filter_eq_nil_of_find_none id s.records h0
    simp only [decide_not] at h2
    simp [deleteRecord, hid, Store.db_Exec_ok s _ hf, Store.execute, h0, h1, h2]
  · have h1 := filter_ne_nil_of_find_some id s.records h0
    simp [deleteRecord, hid, Store.db_Exec_ok s _ hf, Store.execute, h0, h1]

theorem find_isSome_of_mem (id : Int) (l : List Record) (r : Record) (hr : r ∈ l)
    (h : r.ID = id) : ∃ r0, l.find? (fun r => r.ID = id) = some r0 ∧ r0.ID = id := by
  cases hf : l.find? (fun r => r.ID = id) with
  | none =>
    rw [List.find?_eq_none] at hf
    exact absurd (by simpa using h) (hf r hr)
  | some r0 =>
    exact ⟨r0, rfl, by simpa using List.find?_some hf⟩

/-! ## C3: updateRecord -/

/-- C3, as stated, fails in two places. An update of record 1, which is in the store,
with the name and value it already has is answered 404 "Record not found": the
statement changes no row and `RowsAffected` is 0. And an update of record 1 with new
values is answered 500 when the driver reports an error for the statement. -/
theorem updateRecord_counterexample :
    (sampleStore.find 1 = some ⟨1, "a", "b", "t0", "t0"⟩ ∧
      updateRecord Store.db (idCtx "1" (some ⟨0, "a", "b", "", ""⟩)) sampleStore =
        (⟨404, [("error", .str "Record not found")]⟩, sampleStore)) ∧
    (brokenStore.find 1 = some ⟨1, "a", "b", "t0", "t0"⟩ ∧
      updateRecord Store.db (idCtx "1" (some ⟨0, "x", "y", "", ""⟩)) brokenStore =
        (⟨500, [("error", .str "Failed to update record")]⟩, sampleStore)) := by
  decide

/-- C3, amended: for every store state, path id that parses to `id` and parsed body,
when the store executes the statement: `updateRecord` on an id that is not in the store
answers 404 and leaves every table as it was; `updateRecord` on an id that is in the
store with a name or value that differs from the stored one answers 200 with the body's
record under that id, and a `getRecord` for that id served next by the store answers
200 with that id and the name and value given in the update. On any store, when the
statement reports an error, `updateRecord` answers 500. -/
theorem updateRecord_outcomes (s : Store) (c : Ctx) (id : Int) (record : Record)
    (hid : Atoi (c.Params "id") = some id) (hb : c.record = some record) :
    (s.failing = false → s.find id = none →
      updateRecord Store.db c s =
        (⟨404, [("error", .str "Record not found")]⟩, { s with faults := s.faults.tail })) ∧
    (s.failing = false →
      (∃ r ∈ s.records, r.ID = id ∧ (r.Name ≠ record.Name ∨ r.Value ≠ record.Value)) →
      (updateRecord Store.db c s).1 =
          ⟨200, [("data", .record { record with ID := id }), ("success", .bool true),
            ("message", .str "Record updated successfully")]⟩ ∧
        ∀ c2 : Ctx, Atoi (c2.Params "id") = some id →
          (updateRecord Store.db c s).2.failing = false →
          ∃ r : Record,
            (getRecord Store.db c2 (updateRecord Store.db c s).2).1 =
                ⟨200, [("data", .record r), ("success", .bool true)]⟩ ∧
              r.ID = id ∧ r.Name = record.Name ∧ r.Value = record.Value) ∧
    (∀ (σ : Type) (db : DB σ) (t t1 : σ) (e : DBError),
      db.Exec (.updateRecord record.Name record.Value id) t = (.error e, t1) →
      updateRecord db c t = (⟨500, [("error", .str "Failed to update record")]⟩, t1)) := by
  refine ⟨fun hf h0 => ?_, fun hf hex => ?_, fun σ db t t1 e hx => ?_⟩
  · rw [updateRecord_store s c id record hid hb hf,
      if_pos (filter_changes_nil_of_find_none _ _ id s.records h0)]
  · obtain ⟨r, hr, hrid, hdiff⟩ := hex
    have hne : s.records.filter (changes record.Name record.Value id) ≠ [] := by
      intro h
      have hmem : r ∈ s.records.filter (changes record.Name record.Value id) := by
        rw [List.mem_filter]
        refine ⟨hr, ?_⟩
        rcases hdiff with hd | hd <;> simp [changes, hrid, hd]
      rw [h] at hmem
      simp at hmem
    rw [updateRecord_store s c id record hid hb hf, if_neg hne]
    refine ⟨rfl, fun c2 hid2 hf2 => ?_⟩
    obtain ⟨r0, hfind, hr0⟩ := find_isSome_of_mem id s.records r hr hrid
    rw [getRecord_store _ c2 id hid2 hf2]
    have hfind' : Store.find
        { s with
          records := s.records.map (applyUpdate record.Name record.Value id)
          faults := s.faults.tail } id = some (applyUpdate record.Name record.Value id r0) := by
      simp only [Store.find, find_map_applyUpdate, hfind, Option.map_some']
    rw [hfind']
    exact ⟨_, rfl, (applyUpdate_ID _ _ _ _).trans hr0, applyUpdate_hit _ _ _ _ hr0⟩
  · simp [updateRecord, hid, hb, hx]

/-- C3 at the sample store: record 1 takes the name "x" and the value "y", and the next
`getRecord` returns them. -/
theorem updateRecord_outcomes_witness :
    (updateRecord Store.db (idCtx "1" (some ⟨0, "x", "y", "", ""⟩)) sampleStore).1 =
        ⟨200, [("data", .record ⟨1, "x", "y", "", ""⟩), ("success", .bool true),
          ("message", .str "Record updated successfully")]⟩ ∧
      ∃ r : Record,
        (getRecord Store.db (idCtx "1" none)
            (updateRecord Store.db (idCtx "1" (some ⟨0, "x", "y", "", ""⟩)) sampleStore).2).1 =
            ⟨200, [("data", .record r), ("success", .bool true)]⟩ ∧
          r.ID = 1 ∧ r.Name = "x" ∧ r.Value = "y" :=
  have h := (updateRecord_outcomes sampleStore (idCtx "1" (some ⟨0, "x", "y", "", ""⟩)) 1
    ⟨0, "x", "y", "", ""⟩ (by decide) rfl).2.1 (by decide)
    ⟨⟨1, "a", "b", "t0", "t0"⟩, by decide, by decide, by decide⟩
  ⟨h.1, h.2 (idCtx "1" none) (by decide) (by decide)⟩

/-! ## C4: deleteRecord -/

/-- C4, as stated, fails: a delete of record 1, which is in the store, is answered 500,
not 200, when the driver reports an error for the statement. -/
theorem deleteRecord_counterexample :
    brokenStore.find 1 = some ⟨1, "a", "b", "t0", "t0"⟩ ∧
      deleteRecord Store.db (idCtx "1" none) brokenStore =
        (⟨500, [("error", .str "Failed to delete record")]⟩, sampleStore) := by
  decide

/-- C4, amended: for every store state and path id that parses to `id`, when the store
executes the statement: `deleteRecord` on an id that is in the store answers 200, the
rows of `records` with any other id stay as they were, in their order, and a `getRecord`
for that id served next by the store answers 404; `deleteRecord` on an id that is not in
the store answers 404 and leaves every table as it was. On any store, when the
statement reports an error, `deleteRecord` answers 500. -/
theorem deleteRecord_outcomes (s : Store) (c : Ctx) (id : Int)
    (hid : Atoi (c.Params "id") = some id) :
    (s.failing = false → s.find id ≠ none →
      deleteRecord Store.db c s =
          (⟨200, [("success", .bool true), ("message", .str "Record deleted successfully")]⟩,
            { s with
              records := s.records.filter (fun r => r.ID ≠ id)
              faults := s.faults.tail }) ∧
        (∀ j : Int, j ≠ id → (deleteRecord Store.db c s).2.find j = s.find j) ∧
        ∀ c2 : Ctx, Atoi (c2.Params "id") = some id →
          (deleteRecord Store.db c s).2.failing = false →
          (getRecord Store.db c2 (deleteRecord Store.db c s).2).1 =
            ⟨404, [("error", .str "Record not found")]⟩) ∧
    (s.failing = false → s.find id = none →
      deleteRecord Store.db c s =
        (⟨404, [("error", .str "Record not found")]⟩, { s with faults := s.faults.tail })) ∧
    (∀ (σ : Type) (db : DB σ) (t t1 : σ) (e : DBError),
      db.Exec (.deleteRecord id) t = (.error e, t1) →
      deleteRecord db c t = (⟨500, [("error", .str "Failed to delete record")]⟩, t1)) := by
  refine ⟨fun hf h0 => ?_, fun hf h0 => ?_, fun σ db t t1 e hx => ?_⟩
  · rw [deleteRecord_store s c id hid hf, if_neg h0]
    refine ⟨rfl, fun j hj => ?_, fun c2 hid2 hf2 => ?_⟩
    · simp only [Store.find, find_filter_ne, if_neg hj]
    · rw [getRecord_store _ c2 id hid2 hf2]
      simp only [Store.find, find_filter_ne, if_pos]
  · rw [deleteRecord_store s c id hid hf, if_pos h0]
  · simp [deleteRecord, hid, hx]

/-- C4 at the sample store: record 1 is deleted and the next `getRecord` answers 404. -/
theorem deleteRecord_outcomes_witness :
    deleteRecord Store.db (idCtx "1" none) sampleStore =
        (⟨200, [("success", .bool true), ("message", .str "Record deleted successfully")]⟩,
          { sampleStore with records := [] }) ∧
      (getRecord Store.db (idCtx "1" none)
          (deleteRecord Store.db (idCtx "1" none) sampleStore).2).1 =
        ⟨404, [("error", .str "Record not found")]⟩ :=
  have h := (deleteRecord_outcomes sampleStore (idCtx "1" none) 1 (by decide)).1
    (by decide) (by decide)
  ⟨h.1, h.2.2 (idCtx "1" none) (by decide) (by decide)⟩

/-! ## C5: round trip of records -/

theorem note_create (s : Store) (c : Ctx) :
    s.ledger.note (.create c) (createRecord Store.db c s).1 = (createRecord Store.db c s).2.ledger := by
  cases hb : c.record with
  | none => simp [createRecord, hb, Ledger.note, dataRecord, List.lookup]
  | some record =>
    by_cases hn : record.Name = ""
    · simp [createRecord, hb, hn, Ledger.note, dataRecord, List.lookup]
    · cases hf : s.failing with
      | true =>
        simp only [createRecord, hb, hn, if_false, Store.db_Exec_fail s _ hf]
        rfl
      | false =>
        simp only [createRecord, hb, hn, if_false, Store.db_Exec_ok s _ hf, Store.execute,
          Ledger.note, dataRecord, List.lookup]
        funext j
        by_cases hj : j = (s.recordSeq : Int) + 1
        · simp [Store.ledger, Store.find, List.find?, hj]
        · have hj2 : ¬ (s.recordSeq : Int) + 1 = j := fun e => hj e.symm
          simp [Store.ledger, Store.find, List.find?, hj, hj2]

theorem note_update (s : Store) (c : Ctx) :
    s.ledger.note (.update c) (updateRecord Store.db c s).1 = (updateRecord Store.db c s).2.ledger := by
  cases hid : Atoi (c.Params "id") with
  | none => simp [updateRecord, hid, Ledger.note, dataRecord, List.lookup]
  | some id =>
    cases hb : c.record with
    | none => simp [updateRecord, hid, hb, Ledger.note, dataRecord, List.lookup]
    | some record =>
      cases hf : s.failing with
      | true =>
        simp only [updateRecord, hid, hb, Store.db_Exec_fail s _ hf]
        rfl
      | false =>
        rw [updateRecord_store s c id record hid hb hf]
        by_cases h0 : s.records.filter (changes record.Name record.Value id) = []
        · rw [if_pos h0]
          rfl
        · rw [if_neg h0]
          obtain ⟨r, hr⟩ := List.exists_mem_of_ne_nil _ h0
          rw [List.mem_filter] at hr
          have hrid : r.ID = id := by
            have := hr.2
            simp [changes] at this
            exact this.1
          obtain ⟨r0, hfind, hr0⟩ := find_isSome_of_mem id s.records r hr.1 hrid
          funext j
          show (if j = id then some (record.Name, record.Value) else s.ledger j) =
            (((s.records.map (applyUpdate record.Name record.Value id)).find?
              (fun r => decide (r.ID = j))).map (fun r => (r.Name, r.Value)))
          rw [find_map_applyUpdate]
          by_cases hj : j = id
          · subst hj
            rw [if_pos rfl, hfind, Option.map_some', Option.map_some',
              (applyUpdate_hit _ _ _ _ hr0).1, (applyUpdate_hit _ _ _ _ hr0).2]
          · rw [if_neg hj]
            show ((s.records.find? (fun r => decide (r.ID = j))).map (fun r => (r.Name, r.Value))) = _
            cases hfj : s.records.find? (fun r => decide (r.ID = j)) with
            | none => rfl
            | some rj =>
              have hrj : rj.ID = j := by simpa using List.find?_some hfj
              have hne : rj.ID ≠ id := fun e => hj (hrj.symm.trans e)
              rw [Option.map_some', Option.map_some', Option.map_some',
                applyUpdate_miss _ _ _ _ hne]

theorem note_delete (s : Store) (c : Ctx) :
    s.ledger.note (.delete c) (deleteRecord Store.db c s).1 = (deleteRecord Store.db c s).2.ledger := by
  cases hid : Atoi (c.Params "id") with
  | none => simp [deleteRecord, hid, Ledger.note]
  | some id =>
    cases hf : s.failing with
    | true =>
      simp only [deleteRecord, hid, Store.db_Exec_fail s _ hf, Ledger.note]
      rfl
    | false =>
      rw [deleteRecord_store s c id hid hf]
      by_cases h0 : s.find id = none
      · rw [if_pos h0]
        simp only [Ledger.note, hid]
        rfl
      · rw [if_neg h0]
        simp only [Ledger.note, hid]
        funext j
        show (if j = id then none else s.ledger j) =
          (((s.records.filter (fun r => r.ID ≠ id)).find? (fun r => decide (r.ID = j))).map
            (fun r => (r.Name, r.Value)))
        rw [find_filter_ne]
        by_cases hj : j = id
        · rw [if_pos hj, if_pos hj]
          rfl
        · rw [if_neg hj, if_neg hj]
          rfl

/-- The ledger kept from the responses is the ledger of the store, request by request. -/
theorem note_handle (s : Store) (req : Request) :
    s.ledger.note req (s.handle req).1 = (s.handle req).2.ledger := by
  cases req with
  | create c => exact note_create s c
  | update c => exact note_update s c
  | delete c => exact note_delete s c

/-- After any sequence of writing requests the store holds, for every id, the fields
last written for it. -/
theorem lastWritten_eq_ledger (s : Store) (reqs : List Request) :
    lastWritten s s.ledger reqs = (s.after reqs).ledger := by
  induction reqs generalizing s with
  | nil => rfl
  | cons req rest ih =>
    simp only [lastWritten, Store.after]
    rw [note_handle, ih]

/-- C5: round trip of records. For every store state `s0`, every sequence of create,
update and delete requests served from it, and every path id that parses to `id`: when
the store answers the lookup, `getRecord` answers 200 with a record of that id, present
in the store, whose name and value are the ones last written for that id, and answers
404 when the id is not present, no fields being written for it. On any store at all,
`getRecord` answers 500 exactly when `QueryRow(...).Scan` reports an error other than
`sql.ErrNoRows`. -/
theorem getRecord_roundtrip (s0 : Store) (reqs : List Request) (c : Ctx) (id : Int)
    (hid : Atoi (c.Params "id") = some id) :
    ((s0.after reqs).failing = false →
      match lastWritten s0 s0.ledger reqs id with
      | some (name, value) =>
        ∃ r : Record, (s0.after reqs).find id = some r ∧
          (getRecord Store.db c (s0.after reqs)).1 =
            ⟨200, [("data", .record r), ("success", .bool true)]⟩ ∧
          r.ID = id ∧ r.Name = name ∧ r.Value = value
      | none =>
        (s0.after reqs).find id = none ∧
          (getRecord Store.db c (s0.after reqs)).1 = ⟨404, [("error", .str "Record not found")]⟩) ∧
    (∀ (σ : Type) (db : DB σ) (t : σ),
      (getRecord db c t).1.status = 500 ↔
        ∃ e, Scan scanRecord (db.QueryRow (.selectRecord id) t).1 = .error e ∧ e ≠ .ErrNoRows) := by
  refine ⟨fun hf => ?_, fun σ db t => ?_⟩
  · rw [lastWritten_eq_ledger, getRecord_store _ c id hid hf]
    show match ((s0.after reqs).find id).map (fun r => (r.Name, r.Value)) with
      | some (name, value) => _
      | none => _
    cases hfind : (s0.after reqs).find id with
    | none => exact ⟨rfl, rfl⟩
    | some r =>
      have hr : r.ID = id := by
        have := List.find?_some hfind
        simpa using this
      exact ⟨r, rfl, rfl, hr, rfl, rfl⟩
  · simp only [getRecord, hid]
    cases hs : Scan scanRecord (db.QueryRow (.selectRecord id) t).1 with
    | error e => cases e <;> simp
    | ok r => simp

/-- C5 at the sample store: after record 1 is renamed, a record is created and record 1
is renamed again, `getRecord` for id 1 returns the last name and value written. -/
theorem getRecord_roundtrip_witness :
    ∃ r : Record,
      (sampleStore.after [.update (idCtx "1" (some ⟨0, "x", "y", "", ""⟩)),
          .create (recordCtx (some ⟨0, "n", "v", "", ""⟩)),
          .update (idCtx "1" (some ⟨0, "p", "q", "", ""⟩))]).find 1 = some r ∧
        (getRecord Store.db (idCtx "1" none)
          (sampleStore.after [.update (idCtx "1" (some ⟨0, "x", "y", "", ""⟩)),
            .create (recordCtx (some ⟨0, "n", "v", "", ""⟩)),
            .update (idCtx "1" (some ⟨0, "p", "q", "", ""⟩))])).1 =
          ⟨200, [("data", .record r), ("success", .bool true)]⟩ ∧
        r.ID = 1 ∧ r.Name = "p" ∧ r.Value = "q" :=
  (getRecord_roundtrip sampleStore
    [.update (idCtx "1" (some ⟨0, "x", "y", "", ""⟩)),
      .create (recordCtx (some ⟨0, "n", "v", "", ""⟩)),
      .update (idCtx "1" (some ⟨0, "p", "q", "", ""⟩))]
    (idCtx "1" none) 1 (by decide)).1 (by decide)

/-! ## C6: the response envelope -/

theorem conforms_validateAPIKey {σ : Type} (db : DB σ) (route : Route)
    (next : Ctx → σ → Response × σ) (hnext : ∀ c s, conforms route (next c s).1)
    (c : Ctx) (s : σ) : conforms route (validateAPIKey db next c s).1 := by
  unfold validateAPIKey
  simp only []
  split
  · exact Or.inl rfl
  · split
    · exact Or.inl rfl
    · split
      · exact Or.inl rfl
      · exact hnext _ _

theorem conforms_getRecords {σ : Type} (db : DB σ) (route : Route) (hr : route.lists = true)
    (hd : (route != Route.deleteDataId) = true) (c : Ctx) (s : σ) :
    conforms route (getRecords db c s).1 := by
  unfold getRecords
  split
  · exact Or.inl rfl
  · exact Or.inr ⟨rfl, hd.symm, hr.symm⟩

theorem conforms_createRecord {σ : Type} (db : DB σ) (route : Route) (hr : route.lists = false)
    (hd : (route != Route.deleteDataId) = true) (c : Ctx) (s : σ) :
    conforms route (createRecord db c s).1 := by
  unfold createRecord
  split
  · exact Or.inl rfl
  · split
    · exact Or.inl rfl
    · split
      · exact Or.inl rfl
      · exact Or.inr ⟨rfl, hd.symm, hr.symm⟩

/-- C6, as stated, fails: the 401 of the middleware carries no `success` field (its body
is the single field `error`), and the 200 of `deleteRecord` carries `success` and
`message` but neither `data`, `count` nor `error`. -/
theorem envelope_counterexample :
    ((validateAPIKey Store.db (getRecords Store.db) bareCtx sampleStore).1 =
        ⟨401, [("error", .str "API key required")]⟩ ∧
      isEnvelope (validateAPIKey Store.db (getRecords Store.db) bareCtx sampleStore).1.body = false) ∧
    ((deleteRecord Store.db (idCtx "1" none) sampleStore).1 =
        ⟨200, [("success", .bool true), ("message", .str "Record deleted successfully")]⟩ ∧
      isEnvelope (deleteRecord Store.db (idCtx "1" none) sampleStore).1.body = false) := by
  decide

/-- C6, amended: on every route under `/api`, for every store, request and store state,
the response is either an error response (status 400, 401, 404 or 500, the body being
the single field `error`, a string, with no `success` field) or a success response
(status 200 or 201, `success` true, no `error` field) that carries `data` on every route
but `DELETE /api/data/:id` and `count` on exactly the list routes. -/
theorem envelope_shapes (σ : Type) (db : DB σ) (route : Route) (c : Ctx) (s : σ) :
    conforms route (serve db route c s).1 := by
  cases route with
  | getData => exact conforms_getRecords db .getData rfl rfl c s
  | postData => exact conforms_createRecord db .postData rfl rfl c s
  | getDataId =>
    simp only [serve, getRecord]
    split
    · exact Or.inl rfl
    · split
      · exact Or.inl rfl
      · exact Or.inl rfl
      · exact Or.inr ⟨rfl, rfl, rfl⟩
  | putDataId =>
    simp only [serve, updateRecord]
    split
    · exact Or.inl rfl
    · split
      · exact Or.inl rfl
      · split
        · exact Or.inl rfl
        · split
          · exact Or.inl rfl
          · exact Or.inr ⟨rfl, rfl, rfl⟩
  | deleteDataId =>
    simp only [serve, deleteRecord]
    split
    · exact Or.inl rfl
    · split
      · exact Or.inl rfl
      · split
        · exact Or.inl rfl
        · exact Or.inr ⟨rfl, rfl, rfl⟩
  | getUsers =>
    simp only [serve, getUsers]
    split
    · exact Or.inl rfl
    · exact Or.inr ⟨rfl, rfl, rfl⟩
  | postUsers =>
    simp only [serve, createUser]
    split
    · exact Or.inl rfl
    · split
      · exact Or.inl rfl
      · split
        · exact Or.inl rfl
        · exact Or.inr ⟨rfl, rfl, rfl⟩
  | getApikeys =>
    simp only [serve, getAPIKeys]
    split
    · exact Or.inl rfl
    · exact Or.inr ⟨rfl, rfl, rfl⟩
  | protectedGetData =>
    exact conforms_validateAPIKey db _ _ (conforms_getRecords db .protectedGetData rfl rfl) c s
  | protectedPostData =>
    exact conforms_validateAPIKey db _ _ (conforms_createRecord db .protectedPostData rfl rfl) c s

/-! ## C7: the name of a record -/

/-- C7, evaluated at the failing input: every record of the sample store has a
non-empty name, `updateRecord` accepts the body with the empty name for record 1 and
answers 200, and the store then holds record 1 with the empty name; `createRecord`
answers the same body 400 "Name is required". -/
theorem updateRecord_stores_empty_name :
    (∀ r ∈ sampleStore.records, r.Name ≠ "") ∧
      (updateRecord Store.db (idCtx "1" (some ⟨0, "", "b", "", ""⟩)) sampleStore).1 =
        ⟨200, [("data", .record ⟨1, "", "b", "", ""⟩), ("success", .bool true),
          ("message", .str "Record updated successfully")]⟩ ∧
      (sampleStore.after [.update (idCtx "1" (some ⟨0, "", "b", "", ""⟩))]).records =
        [⟨1, "", "b", "t0", "t0"⟩] ∧
      (createRecord Store.db (recordCtx (some ⟨0, "", "b", "", ""⟩)) sampleStore).1 =
        ⟨400, [("error", .str "Name is required")]⟩ := by
  decide

/-! ## C8: the list handlers -/

theorem scanRecords_eq (rows : List Row) (records : List Record) :
    scanRecords rows records = records ++ rows.filterMap scanRecord := by
  induction rows generalizing records with
  | nil => simp [scanRecords]
  | cons row rows ih =>
    cases h : scanRecord row with
    | none => simp [scanRecords, h, ih, List.filterMap_cons]
    | some r => simp [scanRecords, h, ih, List.filterMap_cons]

theorem scanUsers_eq (rows : List Row) (users : List User) :
    scanUsers rows users = users ++ rows.filterMap scanUser := by
  induction rows generalizing users with
  | nil => simp [scanUsers]
  | cons row rows ih =>
    cases h : scanUser row with
    | none => simp [scanUsers, h, ih, List.filterMap_cons]
    | some u => simp [scanUsers, h, ih, List.filterMap_cons]

/-- C8: for every store and every sequence of rows it returns for the list query,
`getRecords` and `getUsers` answer 200 with `data` the rows that scan, in the order the
store returned them, the rows whose scan fails left out, `count` the number of entries
of `data`, and `success` true. -/
theorem list_handlers (σ : Type) (db : DB σ) (c : Ctx) (s s1 : σ) (rows : List Row) :
    (db.Query .selectRecords s = (.ok rows, s1) →
      getRecords db c s =
        (⟨200, [("data", .records (rows.filterMap scanRecord)),
            ("count", .int ((rows.filterMap scanRecord).length : Nat)),
            ("success", .bool true)]⟩, s1)) ∧
    (db.Query .selectUsers s = (.ok rows, s1) →
      getUsers db c s =
        (⟨200, [("data", .users (rows.filterMap scanUser)),
            ("count", .int ((rows.filterMap scanUser).length : Nat)),
            ("success", .bool true)]⟩, s1)) := by
  refine ⟨fun h => ?_, fun h => ?_⟩
  · simp [getRecords, h, scanRecords_eq]
  · simp [getUsers, h, scanUsers_eq]

/-- C8 on three rows of which the second has a NULL name: the two others are returned,
in their order, with count 2. -/
theorem list_handlers_witness :
    getRecords (cannedDB
        [[.int 2, .text "n", .text "v", .text "t1", .text "t1"],
          [.int 3, .null, .text "w", .text "t1", .text "t1"],
          [.int 1, .text "a", .text "b", .text "t0", .text "t0"]]) bareCtx () =
      (⟨200, [("data", .records [⟨2, "n", "v", "t1", "t1"⟩, ⟨1, "a", "b", "t0", "t0"⟩]),
          ("count", .int 2), ("success", .bool true)]⟩, ()) :=
  (list_handlers Unit (cannedDB
      [[.int 2, .text "n", .text "v", .text "t1", .text "t1"],
        [.int 3, .null, .text "w", .text "t1", .text "t1"],
        [.int 1, .text "a", .text "b", .text "t0", .text "t0"]]) bareCtx () ()
    [[.int 2, .text "n", .text "v", .text "t1", .text "t1"],
      [.int 3, .null, .text "w", .text "t1", .text "t1"],
      [.int 1, .text "a", .text "b", .text "t0", .text "t0"]]).1 rfl

/-! ## C9: the path id -/

/-- C9: for every store, request and store state. When the path id does not parse,
`getRecord`, `updateRecord` and `deleteRecord` answer 400 "Invalid record ID" and send
no statement to the store, `updateRecord` also when the body does not parse. When it
parses, the status of `getRecord` and of `deleteRecord` is 200, 404 or 500, and
`updateRecord` answers 400 "Invalid request body" when the body does not parse and
200, 404 or 500 when it does. So each of the three answers 400 for a bad id exactly
when the id does not parse. -/
theorem invalid_id (σ : Type) (db : DB σ) (c : Ctx) (s : σ) :
    (Atoi (c.Params "id") = none →
      getRecord db.traced c (s, []) =
          (⟨400, [("error", .str "Invalid record ID")]⟩, (s, [])) ∧
        updateRecord db.traced c (s, []) =
          (⟨400, [("error", .str "Invalid record ID")]⟩, (s, [])) ∧
        deleteRecord db.traced c (s, []) =
          (⟨400, [("error", .str "Invalid record ID")]⟩, (s, []))) ∧
    (∀ id : Int, Atoi (c.Params "id") = some id →
      ((getRecord db c s).1.status = 200 ∨ (getRecord db c s).1.status = 404 ∨
          (getRecord db c s).1.status = 500) ∧
        ((deleteRecord db c s).1.status = 200 ∨ (deleteRecord db c s).1.status = 404 ∨
          (deleteRecord db c s).1.status = 500) ∧
        (c.record = none →
          (updateRecord db c s).1 = ⟨400, [("error", .str "Invalid request body")]⟩) ∧
        (c.record ≠ none →
          (updateRecord db c s).1.status = 200 ∨ (updateRecord db c s).1.status = 404 ∨
            (updateRecord db c s).1.status = 500)) ∧
    (((getRecord db c s).1.status = 400 ↔ Atoi (c.Params "id") = none) ∧
      ((deleteRecord db c s).1.status = 400 ↔ Atoi (c.Params "id") = none) ∧
      ((updateRecord db c s).1 = ⟨400, [("error", .str "Invalid record ID")]⟩ ↔
        Atoi (c.Params "id") = none)) := by
  have hget : ∀ id : Int, Atoi (c.Params "id") = some id →
      ((getRecord db c s).1.status = 200 ∨ (getRecord db c s).1.status = 404 ∨
        (getRecord db c s).1.status = 500) := by
    intro id hid
    simp only [getRecord, hid]
    split
    · exact Or.inr (Or.inl rfl)
    · exact Or.inr (Or.inr rfl)
    · exact Or.inl rfl
  have hdel : ∀ id : Int, Atoi (c.Params "id") = some id →
      ((deleteRecord db c s).1.status = 200 ∨ (deleteRecord db c s).1.status = 404 ∨
        (deleteRecord db c s).1.status = 500) := by
    intro id hid
    simp only [deleteRecord, hid]
    split
    · exact Or.inr (Or.inr rfl)
    · split
      · exact Or.inr (Or.inl rfl)
      · exact Or.inl rfl
  have hupd : ∀ id : Int, Atoi (c.Params "id") = some id → c.record ≠ none →
      ((updateRecord db c s).1.status = 200 ∨ (updateRecord db c s).1.status = 404 ∨
        (updateRecord db c s).1.status = 500) := by
    intro id hid hb
    cases hr : c.record with
    | none => exact absurd hr hb
    | some record =>
      simp only [updateRecord, hid, hr]
      split
      · exact Or.inr (Or.inr rfl)
      · split
        · exact Or.inr (Or.inl rfl)
        · exact Or.inl rfl
  have hupd0 : ∀ id : Int, Atoi (c.Params "id") = some id → c.record = none →
      (updateRecord db c s).1 = ⟨400, [("error", .str "Invalid request body")]⟩ := by
    intro id hid hb
    simp only [updateRecord, hid, hb]
  refine ⟨fun h => ?_, fun id hid => ⟨hget id hid, hdel id hid, hupd0 id hid, hupd id hid⟩, ?_, ?_, ?_⟩
  · simp [getRecord, updateRecord, deleteRecord, h]
  · constructor
    · intro h4
      cases hid : Atoi (c.Params "id") with
      | none => rfl
      | some id => rcases hget id hid with h | h | h <;> omega
    · intro h
      simp [getRecord, h]
  · constructor
    · intro h4
      cases hid : Atoi (c.Params "id") with
      | none => rfl
      | some id => rcases hdel id hid with h | h | h <;> omega
    · intro h
      simp [deleteRecord, h]
  · constructor
    · intro h4
      cases hid : Atoi (c.Params "id") with
      | none => rfl
      | some id =>
        cases hb : c.record with
        | none =>
          rw [hupd0 id hid hb] at h4
          exact absurd h4 (by decide)
        | some record =>
          have hb2 : c.record ≠ none := by simp [hb]
          have hs : (updateRecord db c s).1.status = 400 := by rw [h4]
          rcases hupd id hid hb2 with h | h | h <;> omega
    · intro h
      simp [updateRecord, h]

/-- C9 on the path id "abc" with an unparseable body, and on the path id "1". -/
theorem invalid_id_witness :
    updateRecord Store.db.traced (idCtx "abc" none) (sampleStore, []) =
        (⟨400, [("error", .str "Invalid record ID")]⟩, (sampleStore, [])) ∧
      ((getRecord Store.db (idCtx "1" none) sampleStore).1.status = 200 ∨
        (getRecord Store.db (idCtx "1" none) sampleStore).1.status = 404 ∨
        (getRecord Store.db (idCtx "1" none) sampleStore).1.status = 500) :=
  ⟨((invalid_id Store Store.db (idCtx "abc" none) sampleStore).1 (by decide)).2.1,
    ((invalid_id Store Store.db (idCtx "1" none) sampleStore).2.1 1 (by decide)).1⟩

/-! ## C10: createUser -/

/-- C10: for every parsed body. `createUser` with an empty username or an empty email
answers 400, sends no statement to the store and leaves it as it was. With both
non-empty: on any store, when the insert succeeds it answers 201 with the body's user
under the id the store reports, and when the insert reports an error it answers 500;
on the relational store the id is the next id of `users` and the new row holds the
given username and email. -/
theorem createUser_outcomes (s : Store) (c : Ctx) (user : User) (hb : c.user = some user) :
    (user.Username = "" ∨ user.Email = "" →
      createUser Store.db c s =
          (⟨400, [("error", .str "Username and email are required")]⟩, s) ∧
        ∀ (σ : Type) (db : DB σ) (t : σ),
          createUser db.traced c (t, []) =
            (⟨400, [("error", .str "Username and email are required")]⟩, (t, []))) ∧
    (user.Username ≠ "" → user.Email ≠ "" →
      (∀ (σ : Type) (db : DB σ) (t t1 : σ) (result : Result),
        db.Exec (.insertUser user.Username user.Email) t = (.ok result, t1) →
        createUser db c t =
          (⟨201, [("data", .user { user with ID := result.LastInsertId }),
              ("success", .bool true), ("message", .str "User created successfully")]⟩, t1)) ∧
      (∀ (σ : Type) (db : DB σ) (t t1 : σ) (e : DBError),
        db.Exec (.insertUser user.Username user.Email) t = (.error e, t1) →
        createUser db c t = (⟨500, [("error", .str "Failed to create user")]⟩, t1)) ∧
      (s.failing = false →
        createUser Store.db c s =
          (⟨201, [("data", .user { user with ID := (s.userSeq : Int) + 1 }),
              ("success", .bool true), ("message", .str "User created successfully")]⟩,
            { s with
              users := ⟨(s.userSeq : Int) + 1, user.Username, user.Email, s.now⟩ :: s.users
              userSeq := s.userSeq + 1
              faults := s.faults.tail }))) := by
  refine ⟨fun h => ⟨?_, ?_⟩, fun hu he => ⟨?_, ?_, ?_⟩⟩
  · simp [createUser, hb, h]
  · intro σ db t
    simp [createUser, hb, h]
  · intro σ db t t1 result hx
    simp [createUser, hb, hu, he, hx]
  · intro σ db t t1 e hx
    simp [createUser, hb, hu, he, hx]
  · intro hf
    simp [createUser, hb, hu, he, Store.db_Exec_ok s _ hf, Store.execute]

/-- C10 at the sample store: the user "bob" is stored under the new id 2, and a body
with an empty email is answered 400. -/
theorem createUser_outcomes_witness :
    createUser Store.db (userCtx (some ⟨0, "bob", "bob@example.org", ""⟩)) sampleStore =
        (⟨201, [("data", .user ⟨2, "bob", "bob@example.org", ""⟩), ("success", .bool true),
            ("message", .str "User created successfully")]⟩,
          { sampleStore with
            users := [⟨2, "bob", "bob@example.org", "t1"⟩, ⟨1, "ann", "ann@example.org", "t0"⟩]
            userSeq := 2 }) ∧
      createUser Store.db (userCtx (some ⟨0, "bob", "", ""⟩)) sampleStore =
        (⟨400, [("error", .str "Username and email are required")]⟩, sampleStore) :=
  ⟨((createUser_outcomes sampleStore (userCtx (some ⟨0, "bob", "bob@example.org", ""⟩))
      ⟨0, "bob", "bob@example.org", ""⟩ rfl).2 (by decide) (by decide)).2.2 (by decide),
    ((createUser_outcomes sampleStore (userCtx (some ⟨0, "bob", "", ""⟩))
      ⟨0, "bob", "", ""⟩ rfl).1 (by decide)).1⟩

end GofiberBackend
